import Mathlib

/-!
# Seewa solar platform — verification of the solar estimation engine

Shallow embedding of the estimation core of `backend/app.py`
(class `SolarEstimator` plus the `/api/solar-estimate` endpoint) and proofs
of the specification claims about it.

Modelling conventions:
* Python floats are modelled as exact rationals (`ℚ`).
* Python `round` (round-half-to-even semantics) is modelled by
  `python_round_int` / `python_round`.
* The remote NASA query is modelled by an explicit `RemoteResult` input that
  records the outcome of the network interaction; every `except` branch of
  `_try_nasa_api` collapses to `RemoteResult.failure`.
* The wall-clock read `datetime.now().month` inside `calculate_solar_potential`
  is modelled as an explicit `current_month : ℕ` argument: this is the value
  the hidden clock read produces at execution time.
* The source compares `math.sqrt` of squared coordinate differences; since
  `Real.sqrt` is strictly monotone on nonnegative reals, the strict comparison
  of the square roots coincides with the strict comparison of the squared
  distances (`sqrt_lt_iff_dist_sq_lt` below), so the selection loop is
  embedded over squared distances in `ℚ`.
-/

/-- One entry of the fixed Nigerian city catalog `NIGERIA_SOLAR_DATA`. -/
structure City where
  name : String
  lat : ℚ
  lng : ℚ
  irradiance : ℚ
  region : String
deriving DecidableEq, Repr

/-- The fixed city table `NIGERIA_SOLAR_DATA` from `backend/app.py`, in the
Python dict insertion order (which is the iteration order of the fallback
loop). -/
def NIGERIA_SOLAR_DATA : List City :=
  [ ⟨"lagos", 6.5244, 3.3792, 4.8, "south"⟩,
    ⟨"abuja", 9.0579, 7.4951, 5.2, "middle_belt"⟩,
    ⟨"kano", 12.0022, 8.5920, 5.5, "north"⟩,
    ⟨"ibadan", 7.3776, 3.9470, 4.9, "south"⟩,
    ⟨"port harcourt", 4.8156, 7.0498, 4.5, "south"⟩,
    ⟨"benin city", 6.3350, 5.6037, 4.7, "south"⟩,
    ⟨"kaduna", 10.5105, 7.4165, 5.3, "north"⟩,
    ⟨"maiduguri", 11.8333, 13.1500, 5.6, "north"⟩,
    ⟨"ilorin", 8.5000, 4.5500, 5.1, "middle_belt"⟩,
    ⟨"enugu", 6.4500, 7.5000, 4.8, "south"⟩,
    ⟨"sokoto", 13.0667, 5.2333, 5.7, "north"⟩ ]

/-- Squared planar distance in raw lat/lng degrees between a query point and a
catalog city.  The source computes
`math.sqrt((lat - city.lat)**2 + (lon - city.lng)**2)`; the loop only ever
compares these values with a strict `<`, and `Real.sqrt` is strictly monotone
on nonnegatives (`sqrt_lt_iff_dist_sq_lt`), so comparing the squares is
faithful to the source. -/
def dist_sq (lat lon : ℚ) (c : City) : ℚ :=
  (lat - c.lat) ^ 2 + (lon - c.lng) ^ 2

lemma dist_sq_nonneg (lat lon : ℚ) (c : City) : 0 ≤ dist_sq lat lon c := by
  unfold dist_sq; positivity

/-- Justification for comparing squared distances instead of the square roots
the source takes: on nonnegative arguments, strict comparison of square roots
is strict comparison of the radicands. -/
lemma sqrt_lt_iff_dist_sq_lt (a b : ℚ) (ha : 0 ≤ a) :
    Real.sqrt a < Real.sqrt b ↔ (a : ℝ) < (b : ℝ) := by
  constructor
  · intro h
    by_contra hba
    push_neg at hba
    exact absurd (Real.sqrt_le_sqrt hba) (not_le.2 h)
  · intro h
    exact Real.sqrt_lt_sqrt (by exact_mod_cast ha) h

/-- One iteration of the fallback loop of `_get_cached_nigerian_irradiance`:
the state is the pair `(closest_city, min_distance)`, with `none` standing for
the initial state closest_city = None, min_distance = positive infinity; a
city replaces the current state exactly when its distance is strictly
smaller than the current minimum. -/
def closest_step (lat lon : ℚ) (st : Option City × Option ℚ) (c : City) :
    Option City × Option ℚ :=
  let distance := dist_sq lat lon c
  match st.2 with
  | none => (some c, some distance)
  | some m => if distance < m then (some c, some distance) else st

/-- The full fallback loop over the city table. -/
def find_closest (lat lon : ℚ) : Option City × Option ℚ :=
  NIGERIA_SOLAR_DATA.foldl (closest_step lat lon) (none, none)

/-- `_get_cached_nigerian_irradiance(lat, lon)`: nearest-city fallback over the
fixed table, defaulting to the Nigeria-wide average 5.0 if no city was found
(only possible for an empty table). -/
def get_cached_nigerian_irradiance (lat lon : ℚ) : ℚ :=
  match (find_closest lat lon).1 with
  | some closest_city => closest_city.irradiance
  | none => 5.0

/-- The loop state is always of the shape `(o, o.map dist_sq)`; in that light a
loop step is exactly Mathlib `List.argAux` for the strict order of squared
distances. -/
lemma closest_step_eq_argAux (lat lon : ℚ) (o : Option City) (c : City) :
    closest_step lat lon (o, o.map (dist_sq lat lon)) c =
      (List.argAux (fun b a => dist_sq lat lon b < dist_sq lat lon a) o c,
       (List.argAux (fun b a => dist_sq lat lon b < dist_sq lat lon a) o c).map
         (dist_sq lat lon)) := by
  cases o with
  | none => rfl
  | some b =>
    by_cases h : dist_sq lat lon c < dist_sq lat lon b <;>
      simp [closest_step, List.argAux, h]

lemma foldl_closest_eq_argAux (lat lon : ℚ) :
    ∀ (l : List City) (o : Option City),
      l.foldl (closest_step lat lon) (o, o.map (dist_sq lat lon)) =
        (l.foldl (List.argAux fun b a => dist_sq lat lon b < dist_sq lat lon a) o,
         (l.foldl (List.argAux fun b a => dist_sq lat lon b < dist_sq lat lon a) o).map
           (dist_sq lat lon)) := by
  intro l
  induction l with
  | nil => intro o; rfl
  | cons c tl ih =>
    intro o
    simp only [List.foldl_cons, closest_step_eq_argAux, ih]

/-- The selected city of the fallback loop is `List.argmin` of the squared
distance over the table. -/
lemma find_closest_fst_eq_argmin (lat lon : ℚ) :
    (find_closest lat lon).1 =
      NIGERIA_SOLAR_DATA.argmin (dist_sq lat lon) := by
  have h := foldl_closest_eq_argAux lat lon NIGERIA_SOLAR_DATA none
  unfold find_closest List.argmin
  exact congrArg Prod.fst h

/-! ## Constants and the loss model -/

/-- `NIGERIA_ELECTRICITY_COST` (USD/kWh). -/
def NIGERIA_ELECTRICITY_COST : ℚ := 0.15

/-- `NIGERIA_ELECTRICITY_COST_NAIRA` (naira/kWh). -/
def NIGERIA_ELECTRICITY_COST_NAIRA : ℚ := 225

/-- `NIGERIA_EMISSION_FACTOR` (kg CO2/kWh). -/
def NIGERIA_EMISSION_FACTOR : ℚ := 0.61

/-- `AVERAGE_HOME_CONSUMPTION` (kWh/year). -/
def AVERAGE_HOME_CONSUMPTION : ℚ := 2400

/-- `np.prod(list(self.loss_factors.values()))`: the product of the eight base
loss factors (soiling, shading, mismatch, wiring_dc, wiring_ac, inverter, age,
availability), in dict order. -/
def loss_factors_product : ℚ :=
  0.97 * 0.98 * 0.98 * 0.98 * 0.99 * 0.96 * 0.995 * 0.99

/-- `self.regional_adjustments.get(region, {})`: the (soiling, temperature)
adjustment pair for a region tag; `none` models the empty dict for an unknown
tag. -/
def regional_adjustments (region : String) : Option (ℚ × ℚ) :=
  if region = "north" then some (0.94, 0.92)
  else if region = "south" then some (0.96, 0.94)
  else if region = "middle_belt" then some (0.95, 0.93)
  else if region = "lagos" then some (0.97, 0.95)
  else none

/-- `region_data.get(soiling-key, 1.0)`. -/
def region_soiling (region : String) : ℚ :=
  ((regional_adjustments region).map Prod.fst).getD 1.0

/-- `region_data.get(temperature-key, 1.0)`. -/
def region_temperature (region : String) : ℚ :=
  ((regional_adjustments region).map Prod.snd).getD 1.0

/-- `calculate_tilt_factor(tilt_angle, optimal_tilt=15)`:
`max(0.85, 1 - (tilt_diff * 0.003))`.  The Python default argument
`optimal_tilt=15` is passed explicitly by every caller site in this
embedding. -/
def calculate_tilt_factor (tilt_angle optimal_tilt : ℚ) : ℚ :=
  let tilt_diff := |tilt_angle - optimal_tilt|
  max 0.85 (1 - tilt_diff * 0.003)

/-- `calculate_total_losses(region, panel_tilt, has_battery)`: base product,
regional soiling and temperature adjustments, tilt factor, then the battery
round-trip factor 0.92 when a battery is present. -/
def calculate_total_losses (region : String) (panel_tilt : ℚ)
    (has_battery : Bool) : ℚ :=
  let total_loss := loss_factors_product
  let total_loss := total_loss * region_soiling region
  let total_loss := total_loss * region_temperature region
  let total_loss := total_loss * calculate_tilt_factor panel_tilt 15
  if has_battery then total_loss * 0.92 else total_loss

/-- The same loss computation as `calculate_total_losses` with the tilt factor
left out (the quantity the spec calls the base loss sans tilt). -/
def losses_sans_tilt (region : String) (has_battery : Bool) : ℚ :=
  let total_loss := loss_factors_product
  let total_loss := total_loss * region_soiling region
  let total_loss := total_loss * region_temperature region
  if has_battery then total_loss * 0.92 else total_loss

/-! ## Seasonal factors and the energy estimator -/

/-- `NIGERIA_MONTHLY_FACTORS.get(m, 1.0)`: the fixed 12-entry seasonal table,
with the default 1.0 of the `.get` call at the lookup site for any other
key. -/
def NIGERIA_MONTHLY_FACTORS (month : ℕ) : ℚ :=
  match month with
  | 1 => 1.10 | 2 => 1.12 | 3 => 1.08 | 4 => 0.95 | 5 => 0.85 | 6 => 0.80
  | 7 => 0.82 | 8 => 0.85 | 9 => 0.90 | 10 => 1.00 | 11 => 1.05 | 12 => 1.08
  | _ => 1.0

/-- `calculate_solar_potential(irradiance, area, efficiency, region,
panel_tilt, has_battery)`.  The source reads `datetime.now().month` with an
unconditional wall-clock call; `current_month` is the value that hidden read
produces, made explicit so the computation can be stated. -/
def calculate_solar_potential (irradiance area efficiency : ℚ)
    (region : String) (panel_tilt : ℚ) (has_battery : Bool)
    (current_month : ℕ) : ℚ :=
  let total_system_loss := calculate_total_losses region panel_tilt has_battery
  let daily_energy := irradiance * area * efficiency * total_system_loss
  let annual_energy := daily_energy * 365
  let seasonal_factor := NIGERIA_MONTHLY_FACTORS current_month
  annual_energy * seasonal_factor

/-! ## Python rounding -/

/-- Python `round(x)`: round half to even, to an integer. -/
def python_round_int (x : ℚ) : ℤ :=
  let f := ⌊x⌋
  let r := x - (f : ℚ)
  if r < 1 / 2 then f
  else if 1 / 2 < r then f + 1
  else if f % 2 = 0 then f else f + 1

/-- Python `round(x, ndigits)`: round half to even at `ndigits` decimal
places. -/
def python_round (x : ℚ) (ndigits : ℕ) : ℚ :=
  (python_round_int (x * 10 ^ ndigits) : ℚ) / 10 ^ ndigits

/-! ## Financial analysis -/

/-- The response block of `calculate_financial_analysis`, with the rounding the
source applies when building the dict. -/
structure FinancialAnalysis where
  simple_payback_years : ℚ
  total_25year_savings_usd : ℤ
  return_on_investment_percent : ℚ
  system_cost_usd : ℚ
deriving DecidableEq, Repr

/-- The local `simple_payback` of `calculate_financial_analysis`:
`system_cost / annual_savings if annual_savings > 0 else 0`, before the
display rounding. -/
def simple_payback_calc (annual_energy_kwh system_cost : ℚ) : ℚ :=
  let annual_savings := annual_energy_kwh * NIGERIA_ELECTRICITY_COST
  if annual_savings > 0 then system_cost / annual_savings else 0

/-- The local `total_25yr_energy`: the loop
`for year in range(1, 26): total += annual * (1 - 0.005) ** (year - 1)`. -/
def total_25yr_energy_calc (annual_energy_kwh : ℚ) : ℚ :=
  (List.range' 1 25).foldl
    (fun acc year => acc + annual_energy_kwh * (1 - 0.005) ^ (year - 1)) 0

/-- The local `roi_percentage`:
`((total_25yr_savings - cost) / cost) * 100 if cost > 0 else 0`, before the
display rounding. -/
def roi_percentage_calc (annual_energy_kwh system_cost : ℚ) : ℚ :=
  let total_25yr_savings := total_25yr_energy_calc annual_energy_kwh *
    NIGERIA_ELECTRICITY_COST
  if system_cost > 0 then
    ((total_25yr_savings - system_cost) / system_cost) * 100
  else 0

/-- `calculate_financial_analysis(annual_energy_kwh, system_cost)`. -/
def calculate_financial_analysis (annual_energy_kwh system_cost : ℚ) :
    FinancialAnalysis :=
  { simple_payback_years :=
      python_round (simple_payback_calc annual_energy_kwh system_cost) 1
    total_25year_savings_usd :=
      python_round_int (total_25yr_energy_calc annual_energy_kwh *
        NIGERIA_ELECTRICITY_COST)
    return_on_investment_percent :=
      python_round (roi_percentage_calc annual_energy_kwh system_cost) 1
    system_cost_usd := system_cost }

/-! ## Nigerian benefits -/

/-- The local `carbon_offset_tons` of `calculate_nigerian_benefits`, before the
display rounding. -/
def carbon_offset_tons_calc (energy_kwh : ℚ) : ℚ :=
  (energy_kwh * NIGERIA_EMISSION_FACTOR) / 1000

/-- The local `annual_savings_usd`, before the display rounding. -/
def annual_savings_usd_calc (energy_kwh : ℚ) : ℚ :=
  energy_kwh * NIGERIA_ELECTRICITY_COST

/-- The local `annual_savings_naira`, before the display rounding. -/
def annual_savings_naira_calc (energy_kwh : ℚ) : ℚ :=
  energy_kwh * NIGERIA_ELECTRICITY_COST_NAIRA

/-- The local `equivalent_homes`, before the display rounding. -/
def equivalent_homes_calc (energy_kwh : ℚ) : ℚ :=
  energy_kwh / AVERAGE_HOME_CONSUMPTION

/-- The local `equivalent_trees`, before the display rounding.  Note that it is
computed from the UNROUNDED `carbon_offset_tons` local. -/
def equivalent_trees_calc (energy_kwh : ℚ) : ℚ :=
  carbon_offset_tons_calc energy_kwh / 0.02177

/-- The response block of `calculate_nigerian_benefits`, with the rounding the
source applies when building the dict. -/
structure Benefits where
  carbon_offset_tons : ℚ
  annual_savings_usd : ℤ
  annual_savings_naira : ℤ
  equivalent_homes : ℚ
  equivalent_trees : ℤ
deriving DecidableEq, Repr

/-- `calculate_nigerian_benefits(energy_kwh)`. -/
def calculate_nigerian_benefits (energy_kwh : ℚ) : Benefits :=
  { carbon_offset_tons := python_round (carbon_offset_tons_calc energy_kwh) 1
    annual_savings_usd := python_round_int (annual_savings_usd_calc energy_kwh)
    annual_savings_naira :=
      python_round_int (annual_savings_naira_calc energy_kwh)
    equivalent_homes := python_round (equivalent_homes_calc energy_kwh) 1
    equivalent_trees := python_round_int (equivalent_trees_calc energy_kwh) }

/-- `calculate_advanced_benefits(energy_kwh, system_cost, include_financial)`:
the source merges the financial dict into the benefits dict when
`include_financial and system_cost > 0`; the merge is modelled as a pair whose
second component holds the financial block when present. -/
def calculate_advanced_benefits (energy_kwh system_cost : ℚ)
    (include_financial : Bool) : Benefits × Option FinancialAnalysis :=
  (calculate_nigerian_benefits energy_kwh,
   if include_financial then
     if system_cost > 0 then
       some (calculate_financial_analysis energy_kwh system_cost)
     else none
   else none)

/-! ## Panel estimation -/

/-- The response block of `estimate_panel_count`.  The source dict key of the
last field is spelled coverage_ratio. -/
structure PanelEstimation where
  estimated_panels : ℤ
  system_size_kw : ℚ
  panel_watts : ℚ
  coverage_frac : ℚ
deriving DecidableEq, Repr

/-- `estimate_panel_count(area, panel_watts=450)`. -/
def estimate_panel_count (area panel_watts : ℚ) : PanelEstimation :=
  let panel_area_sq_m : ℚ := 1.8 * 1.0
  let usable_area := area * 0.85
  let estimated_panels := ⌊usable_area / panel_area_sq_m⌋
  let system_size_kw := ((estimated_panels : ℚ) * panel_watts) / 1000
  { estimated_panels := estimated_panels
    system_size_kw := python_round system_size_kw 1
    panel_watts := panel_watts
    coverage_frac := python_round (usable_area / area) 2 }

/-! ## The remote source and the irradiance resolver -/

/-- Outcome of one remote NASA POWER query.  `response status samples` is an
HTTP reply whose body parsed into the expected sample map (`samples` are the
values of the irradiance dict, `none` for nulls); `failure` is any raised
exception: timeout, connection error, any other request error, or a body from
which the expected keys could not be parsed. -/
inductive RemoteResult where
  | response (status : ℤ) (samples : List (Option ℚ))
  | failure
deriving DecidableEq, Repr

/-- `_try_nasa_api(lat, lon)` as a function of the remote outcome: on a
status-200 reply with at least one non-null sample, the arithmetic mean of the
non-null samples; `none` (meaning Python `None`) otherwise.  Every `except`
branch of the source returns `None`, which is the `failure` case here. -/
def try_nasa_api (remote : RemoteResult) : Option ℚ :=
  match remote with
  | .failure => none
  | .response status samples =>
    if status = 200 then
      let values := samples.filterMap id
      if values ≠ [] then some (values.sum / (values.length : ℚ)) else none
    else none

/-- `get_nigerian_solar_irradiance(lat, lon)`: the NASA result when the remote
query succeeded, the cached nearest-city fallback otherwise.  Total in all
cases: no outcome of the remote query raises to the caller. -/
def get_nigerian_solar_irradiance (lat lon : ℚ) (remote : RemoteResult) : ℚ :=
  match try_nasa_api remote with
  | some nasa_data => nasa_data
  | none => get_cached_nigerian_irradiance lat lon

/-! ## The solar-estimate endpoint -/

/-- The solar_data block of the `/api/solar-estimate` response.  The source
dict key of the last field is spelled system_performance_ratio. -/
structure SolarData where
  daily_irradiance : ℚ
  annual_energy_kwh : ℤ
  monthly_energy_kwh : ℤ
  system_performance : ℚ
deriving DecidableEq, Repr

/-- The echoed location block. -/
structure Location where
  lat : ℚ
  lng : ℚ
  region : String
deriving DecidableEq, Repr

/-- The echoed calculation_parameters block. -/
structure CalculationParameters where
  panel_tilt : ℚ
  efficiency : ℚ
  has_battery : Bool
  area_sq_m : ℚ
deriving DecidableEq, Repr

/-- The successful response of `/api/solar-estimate` (the fields the
computation core produces; `financials` holds the keys the source merges into
the benefits dict when a financial analysis was requested). -/
structure EstimateResponse where
  success : Bool
  data_source : String
  location : Location
  solar_data : SolarData
  benefits : Benefits
  financials : Option FinancialAnalysis
  system_size : PanelEstimation
  calculation_parameters : CalculationParameters
deriving DecidableEq, Repr

/-- The computation of the `solar_estimate` endpoint on a successfully parsed
request.  `remote1` is the outcome of the remote query issued inside
`get_nigerian_solar_irradiance`; `remote2` is the outcome of the second,
independent remote query the source issues to pick the data_source tag;
`current_month` is the value of the hidden `datetime.now().month` read. -/
def solar_estimate (lat lng area efficiency panel_tilt : ℚ) (region : String)
    (has_battery : Bool) (system_cost : ℚ) (remote1 remote2 : RemoteResult)
    (current_month : ℕ) : EstimateResponse :=
  let irradiance := get_nigerian_solar_irradiance lat lng remote1
  let annual_energy := calculate_solar_potential irradiance area efficiency
    region panel_tilt has_battery current_month
  let include_financial := decide (system_cost > 0)
  let benefits := calculate_advanced_benefits annual_energy system_cost
    include_financial
  let panel_estimation := estimate_panel_count area 450
  let data_source :=
    if (try_nasa_api remote2).isSome then "nasa_api" else "cached_data"
  { success := true
    data_source := data_source
    location := ⟨lat, lng, region⟩
    solar_data :=
      { daily_irradiance := python_round irradiance 2
        annual_energy_kwh := python_round_int annual_energy
        monthly_energy_kwh := python_round_int (annual_energy / 12)
        system_performance :=
          python_round (calculate_total_losses region panel_tilt has_battery) 3 }
    benefits := benefits.1
    financials := benefits.2
    system_size := panel_estimation
    calculation_parameters := ⟨panel_tilt, efficiency, has_battery, area⟩ }

/-! ## Theorems -/

lemma dist_sq_self (c : City) : dist_sq c.lat c.lng c = 0 := by
  simp [dist_sq]

set_option maxHeartbeats 2000000 in
/-- No two catalog entries with the same coordinates disagree on irradiance
(in fact all eleven coordinate pairs are pairwise distinct). -/
lemma city_coords_determine_irradiance :
    ∀ c ∈ NIGERIA_SOLAR_DATA, ∀ m ∈ NIGERIA_SOLAR_DATA,
      dist_sq c.lat c.lng m = 0 → m.irradiance = c.irradiance := by
  intro c hc m hm
  fin_cases hc <;> fin_cases hm <;> intro h <;>
    first
      | rfl
      | (exfalso; norm_num [dist_sq] at h)

/-- The city table is not empty. -/
lemma nigeria_solar_data_ne_nil : NIGERIA_SOLAR_DATA ≠ [] := by
  unfold NIGERIA_SOLAR_DATA
  exact List.cons_ne_nil _ _

/-- At the exact coordinates of any cataloged city, the fallback returns that
city irradiance (shared by the C1 and C9 developments). -/
lemma cached_irradiance_at_city :
    ∀ c ∈ NIGERIA_SOLAR_DATA,
      get_cached_nigerian_irradiance c.lat c.lng = c.irradiance := by
  intro c hc
  cases harg : NIGERIA_SOLAR_DATA.argmin (dist_sq c.lat c.lng) with
  | none => exact absurd (List.argmin_eq_none.1 harg) nigeria_solar_data_ne_nil
  | some m =>
    obtain ⟨hml, hmin, _⟩ := List.argmin_eq_some_iff.1 harg
    have h0 : dist_sq c.lat c.lng m = 0 :=
      le_antisymm (by simpa [dist_sq_self] using hmin c hc)
        (dist_sq_nonneg _ _ _)
    have hirr := city_coords_determine_irradiance c hc m hml h0
    unfold get_cached_nigerian_irradiance
    rw [find_closest_fst_eq_argmin, harg]
    exact hirr

lemma python_round_int_intCast (k : ℤ) : python_round_int (k : ℚ) = k := by
  simp [python_round_int]

/-- A rational that is exact at `n` decimal places is reproduced by the Python
display rounding. -/
lemma python_round_eq_self (x : ℚ) (n : ℕ) (k : ℤ)
    (h : x * 10 ^ n = (k : ℚ)) : python_round x n = x := by
  unfold python_round
  rw [h, python_round_int_intCast, ← h, mul_div_assoc,
    div_self (by positivity), mul_one]

/-- The catalog irradiance values are exact at two decimal places, so the
display rounding of the endpoint reproduces them. -/
lemma round2_irradiance_at_city :
    ∀ c ∈ NIGERIA_SOLAR_DATA,
      python_round c.irradiance 2 = c.irradiance := by
  intro c hc
  fin_cases hc
  · exact python_round_eq_self _ _ 480 (by norm_num)
  · exact python_round_eq_self _ _ 520 (by norm_num)
  · exact python_round_eq_self _ _ 550 (by norm_num)
  · exact python_round_eq_self _ _ 490 (by norm_num)
  · exact python_round_eq_self _ _ 450 (by norm_num)
  · exact python_round_eq_self _ _ 470 (by norm_num)
  · exact python_round_eq_self _ _ 530 (by norm_num)
  · exact python_round_eq_self _ _ 560 (by norm_num)
  · exact python_round_eq_self _ _ 510 (by norm_num)
  · exact python_round_eq_self _ _ 480 (by norm_num)
  · exact python_round_eq_self _ _ 570 (by norm_num)

/-- C1: for every latitude/longitude pair, the fallback resolver returns the
cached irradiance of a catalog city that minimizes the unweighted planar
Euclidean distance in raw lat/lng degrees, and among the minimizers it is the
one encountered first in iteration order (the strict `<` update never replaces
on a tie); in particular, at the exact coordinates of a cataloged city it
returns exactly that city cached irradiance. -/
theorem fallback_nearest_city (lat lon : ℚ) :
    (∃ c : City, c ∈ NIGERIA_SOLAR_DATA ∧
      get_cached_nigerian_irradiance lat lon = c.irradiance ∧
      (∀ a ∈ NIGERIA_SOLAR_DATA, dist_sq lat lon c ≤ dist_sq lat lon a) ∧
      (∀ a ∈ NIGERIA_SOLAR_DATA, dist_sq lat lon a ≤ dist_sq lat lon c →
        NIGERIA_SOLAR_DATA.indexOf c ≤ NIGERIA_SOLAR_DATA.indexOf a)) ∧
    (∀ c ∈ NIGERIA_SOLAR_DATA,
      get_cached_nigerian_irradiance c.lat c.lng = c.irradiance) := by
  constructor
  · cases harg : NIGERIA_SOLAR_DATA.argmin (dist_sq lat lon) with
    | none =>
      exact absurd (List.argmin_eq_none.1 harg) nigeria_solar_data_ne_nil
    | some m =>
      obtain ⟨hml, hmin, hidx⟩ := List.argmin_eq_some_iff.1 harg
      refine ⟨m, hml, ?_, hmin, hidx⟩
      unfold get_cached_nigerian_irradiance
      rw [find_closest_fst_eq_argmin, harg]
  · exact cached_irradiance_at_city

/-- C1 witness: the theorem applied at the Lagos coordinates, the membership
hypothesis of the exact-match conjunct discharged concretely. -/
theorem fallback_nearest_city_witness :
    get_cached_nigerian_irradiance 6.5244 3.3792 = 4.8 :=
  (fallback_nearest_city 6.5244 3.3792).2
    ⟨"lagos", 6.5244, 3.3792, 4.8, "south"⟩ (List.mem_cons_self _ _)

/-! ### Loss model bounds (shared by C2, C3, C4, C5, C10) -/

lemma loss_factors_product_pos : 0 < loss_factors_product := by
  norm_num [loss_factors_product]

lemma loss_factors_product_le_one : loss_factors_product ≤ 1 := by
  norm_num [loss_factors_product]

lemma region_soiling_pos (region : String) : 0 < region_soiling region := by
  unfold region_soiling regional_adjustments
  split_ifs <;> norm_num

lemma region_soiling_le_one (region : String) : region_soiling region ≤ 1 := by
  unfold region_soiling regional_adjustments
  split_ifs <;> norm_num

lemma region_temperature_pos (region : String) :
    0 < region_temperature region := by
  unfold region_temperature regional_adjustments
  split_ifs <;> norm_num

lemma region_temperature_le_one (region : String) :
    region_temperature region ≤ 1 := by
  unfold region_temperature regional_adjustments
  split_ifs <;> norm_num

lemma tilt_factor_ge (tilt_angle optimal_tilt : ℚ) :
    0.85 ≤ calculate_tilt_factor tilt_angle optimal_tilt :=
  le_max_left _ _

lemma tilt_factor_pos (tilt_angle optimal_tilt : ℚ) :
    0 < calculate_tilt_factor tilt_angle optimal_tilt :=
  lt_of_lt_of_le (by norm_num) (tilt_factor_ge tilt_angle optimal_tilt)

lemma tilt_factor_le_one (tilt_angle optimal_tilt : ℚ) :
    calculate_tilt_factor tilt_angle optimal_tilt ≤ 1 := by
  unfold calculate_tilt_factor
  apply max_le (by norm_num)
  nlinarith [abs_nonneg (tilt_angle - optimal_tilt)]

/-- The total loss splits as the loss computation without the tilt factor
times the tilt factor. -/
lemma total_losses_eq_sans_mul_tilt (region : String) (panel_tilt : ℚ)
    (has_battery : Bool) :
    calculate_total_losses region panel_tilt has_battery =
      losses_sans_tilt region has_battery *
        calculate_tilt_factor panel_tilt 15 := by
  cases has_battery
  all_goals
    simp only [calculate_total_losses, losses_sans_tilt, if_true, if_false,
      Bool.false_eq_true, if_neg, ite_true, ite_false]
  all_goals ring

/-- Product form of the battery branch. -/
lemma losses_sans_tilt_eq_product (region : String) (has_battery : Bool) :
    losses_sans_tilt region has_battery =
      loss_factors_product * region_soiling region *
        region_temperature region * (if has_battery = true then 0.92 else 1) := by
  cases has_battery <;> simp [losses_sans_tilt]

lemma battery_factor_pos (has_battery : Bool) :
    (0 : ℚ) < (if has_battery = true then 0.92 else 1) := by
  cases has_battery <;> norm_num

lemma battery_factor_le_one (has_battery : Bool) :
    (if has_battery = true then (0.92 : ℚ) else 1) ≤ 1 := by
  cases has_battery <;> norm_num

lemma losses_sans_tilt_pos (region : String) (has_battery : Bool) :
    0 < losses_sans_tilt region has_battery := by
  rw [losses_sans_tilt_eq_product]
  exact mul_pos
    (mul_pos (mul_pos loss_factors_product_pos (region_soiling_pos region))
      (region_temperature_pos region))
    (battery_factor_pos has_battery)

lemma losses_sans_tilt_le_one (region : String) (has_battery : Bool) :
    losses_sans_tilt region has_battery ≤ 1 := by
  rw [losses_sans_tilt_eq_product]
  exact mul_le_one₀
    (mul_le_one₀
      (mul_le_one₀ loss_factors_product_le_one (region_soiling_pos region).le
        (region_soiling_le_one region))
      (region_temperature_pos region).le (region_temperature_le_one region))
    (battery_factor_pos has_battery).le (battery_factor_le_one has_battery)

lemma total_losses_pos (region : String) (panel_tilt : ℚ)
    (has_battery : Bool) :
    0 < calculate_total_losses region panel_tilt has_battery := by
  rw [total_losses_eq_sans_mul_tilt]
  exact mul_pos (losses_sans_tilt_pos region has_battery)
    (tilt_factor_pos panel_tilt 15)

lemma total_losses_le_one (region : String) (panel_tilt : ℚ)
    (has_battery : Bool) :
    calculate_total_losses region panel_tilt has_battery ≤ 1 := by
  rw [total_losses_eq_sans_mul_tilt]
  have h1 := losses_sans_tilt_pos region has_battery
  have h2 := losses_sans_tilt_le_one region has_battery
  have h3 := tilt_factor_pos panel_tilt 15
  have h4 := tilt_factor_le_one panel_tilt 15
  nlinarith

/-- The annual-energy computation in closed form (shared by C2 and C10). -/
lemma solar_potential_eq_formula (irradiance area efficiency : ℚ)
    (region : String) (panel_tilt : ℚ) (has_battery : Bool)
    (current_month : ℕ) :
    calculate_solar_potential irradiance area efficiency region panel_tilt
        has_battery current_month =
      irradiance * area * efficiency *
        calculate_total_losses region panel_tilt has_battery * 365 *
        NIGERIA_MONTHLY_FACTORS current_month := by
  unfold calculate_solar_potential
  ring

/-- C2: for every irradiance, area, efficiency, region, tilt, battery flag and
fixed calendar month, the annual energy equals
irradiance * area * efficiency * total_loss * 365 * seasonal_factor(month);
and in the concrete scenario (irradiance 5.0, area 20, efficiency 0.18,
defaults, month 10 whose seasonal factor is 1.0) it is exactly
5.0 * 20 * 0.18 * total_loss * 365. -/
theorem annual_energy_formula :
    (∀ (irradiance area efficiency : ℚ) (region : String) (panel_tilt : ℚ)
        (has_battery : Bool) (current_month : ℕ),
      calculate_solar_potential irradiance area efficiency region panel_tilt
          has_battery current_month =
        irradiance * area * efficiency *
          calculate_total_losses region panel_tilt has_battery * 365 *
          NIGERIA_MONTHLY_FACTORS current_month) ∧
    calculate_solar_potential 5.0 20 0.18 "middle_belt" 15 false 10 =
      5.0 * 20 * 0.18 * calculate_total_losses "middle_belt" 15 false * 365 := by
  refine ⟨solar_potential_eq_formula, ?_⟩
  rw [solar_potential_eq_formula]
  norm_num [NIGERIA_MONTHLY_FACTORS]

/-- C3: the code reads the calendar month through an unconditional
`datetime.now()` call inside `calculate_solar_potential`; the month is NOT an
explicit parameter of the source function.  Consequently the result depends on
the hidden wall-clock state: the identical explicit inputs evaluated when the
clock reads January and when it reads June give different annual energies
(seasonal factors 1.10 versus 0.80).  `current_month` in the embedding is
exactly the value of that hidden clock read. -/
theorem solar_potential_depends_on_hidden_clock :
    calculate_solar_potential 5.0 20 0.18 "middle_belt" 15 false 1 ≠
      calculate_solar_potential 5.0 20 0.18 "middle_belt" 15 false 6 := by
  have hL := total_losses_pos "middle_belt" 15 false
  rw [solar_potential_eq_formula, solar_potential_eq_formula]
  simp only [NIGERIA_MONTHLY_FACTORS]
  intro h
  nlinarith

/-- C4: total_loss is monotonically non-increasing as the tilt deviation
grows, and it is floored at 0.85 times the same loss computation without the
tilt factor. -/
theorem total_losses_tilt_monotone_and_floor :
    (∀ (region : String) (has_battery : Bool) (t1 t2 : ℚ),
      |t1 - 15| ≤ |t2 - 15| →
        calculate_total_losses region t2 has_battery ≤
          calculate_total_losses region t1 has_battery) ∧
    (∀ (region : String) (panel_tilt : ℚ) (has_battery : Bool),
      0.85 * losses_sans_tilt region has_battery ≤
        calculate_total_losses region panel_tilt has_battery) := by
  constructor
  · intro region has_battery t1 t2 hdev
    rw [total_losses_eq_sans_mul_tilt, total_losses_eq_sans_mul_tilt]
    apply mul_le_mul_of_nonneg_left _ (losses_sans_tilt_pos region has_battery).le
    unfold calculate_tilt_factor
    exact max_le_max (le_refl _) (by nlinarith)
  · intro region panel_tilt has_battery
    rw [total_losses_eq_sans_mul_tilt,
      mul_comm (losses_sans_tilt region has_battery)]
    exact mul_le_mul_of_nonneg_right (tilt_factor_ge panel_tilt 15)
      (losses_sans_tilt_pos region has_battery).le

/-- C4 witness: the monotonicity conjunct applied at region north with
battery, tilts 15 and 20, and the floor conjunct at the same point. -/
theorem total_losses_tilt_monotone_and_floor_witness :
    |(15 : ℚ) - 15| ≤ |(20 : ℚ) - 15| ∧
    calculate_total_losses "north" 20 true ≤
      calculate_total_losses "north" 15 true ∧
    0.85 * losses_sans_tilt "north" true ≤
      calculate_total_losses "north" 20 true :=
  ⟨by norm_num,
   total_losses_tilt_monotone_and_floor.1 "north" true 15 20 (by norm_num),
   total_losses_tilt_monotone_and_floor.2 "north" 20 true⟩

/-- C5: for every region tag (known or unknown), every panel tilt and every
battery flag, the total-loss multiplier lies strictly above 0 and at most 1. -/
theorem total_losses_in_unit_interval :
    ∀ (region : String) (panel_tilt : ℚ) (has_battery : Bool),
      0 < calculate_total_losses region panel_tilt has_battery ∧
        calculate_total_losses region panel_tilt has_battery ≤ 1 :=
  fun region panel_tilt has_battery =>
    ⟨total_losses_pos region panel_tilt has_battery,
     total_losses_le_one region panel_tilt has_battery⟩

lemma python_round_zero (n : ℕ) : python_round 0 n = 0 :=
  python_round_eq_self 0 n 0 (by norm_num)

/-- C6: the irradiance resolver is total over every outcome of the remote
query (the embedding is a total function, mirroring that every exception path
of the source is caught): whenever the remote attempt yields no value
(timeout, connection error, malformed payload, non-200 status, or zero
non-null samples) the resolver returns the local cached fallback, and on
remote success (status 200 with at least one non-null sample) it returns the
arithmetic mean of the non-null samples. -/
theorem irradiance_resolver_fallback_and_mean (lat lon : ℚ)
    (remote : RemoteResult) :
    (try_nasa_api remote = none →
      get_nigerian_solar_irradiance lat lon remote =
        get_cached_nigerian_irradiance lat lon) ∧
    (∀ (status : ℤ) (samples : List (Option ℚ)),
      remote = RemoteResult.response status samples → status = 200 →
      samples.filterMap id ≠ [] →
      get_nigerian_solar_irradiance lat lon remote =
        (samples.filterMap id).sum / ((samples.filterMap id).length : ℚ)) := by
  constructor
  · intro h
    unfold get_nigerian_solar_irradiance
    rw [h]
  · rintro status samples rfl h200 hne
    have h : try_nasa_api (RemoteResult.response status samples) =
        some ((samples.filterMap id).sum /
          ((samples.filterMap id).length : ℚ)) := by
      simp only [try_nasa_api]
      rw [if_pos h200, if_pos hne]
    unfold get_nigerian_solar_irradiance
    rw [h]

/-- C6 witness: a failed remote query falls back to the cache; a status-200
reply with the non-null samples 4 and 6 yields their mean. -/
theorem irradiance_resolver_fallback_and_mean_witness :
    get_nigerian_solar_irradiance 9.0579 7.4951 RemoteResult.failure =
      get_cached_nigerian_irradiance 9.0579 7.4951 ∧
    get_nigerian_solar_irradiance 9.0579 7.4951
        (RemoteResult.response 200 [some 4, none, some 6]) =
      (([some (4 : ℚ), none, some 6].filterMap id).sum /
        (([some (4 : ℚ), none, some 6].filterMap id).length : ℚ)) :=
  ⟨(irradiance_resolver_fallback_and_mean 9.0579 7.4951
      RemoteResult.failure).1 rfl,
   (irradiance_resolver_fallback_and_mean 9.0579 7.4951
      (RemoteResult.response 200 [some 4, none, some 6])).2
      200 [some 4, none, some 6] rfl rfl (by simp)⟩

/-- C7: the financial analysis never divides by zero: zero annual savings
reports a simple payback of 0, a zero system cost reports an ROI of 0, and
with positive cost and positive savings the (pre-display-rounding) payback is
exactly cost / (energy * rate), the reported field being its one-decimal
rounding. -/
theorem financial_analysis_division_guards
    (annual_energy_kwh system_cost : ℚ) :
    (annual_energy_kwh * NIGERIA_ELECTRICITY_COST = 0 →
      (calculate_financial_analysis annual_energy_kwh
          system_cost).simple_payback_years = 0) ∧
    (system_cost = 0 →
      (calculate_financial_analysis annual_energy_kwh
          system_cost).return_on_investment_percent = 0) ∧
    (0 < system_cost → 0 < annual_energy_kwh * NIGERIA_ELECTRICITY_COST →
      simple_payback_calc annual_energy_kwh system_cost =
        system_cost / (annual_energy_kwh * NIGERIA_ELECTRICITY_COST) ∧
      (calculate_financial_analysis annual_energy_kwh
          system_cost).simple_payback_years =
        python_round
          (system_cost / (annual_energy_kwh * NIGERIA_ELECTRICITY_COST)) 1) := by
  refine ⟨?_, ?_, ?_⟩
  · intro h0
    show python_round (simple_payback_calc annual_energy_kwh system_cost) 1 = 0
    unfold simple_payback_calc
    rw [if_neg (by rw [h0]; exact lt_irrefl 0), python_round_zero]
  · intro h0
    show python_round (roi_percentage_calc annual_energy_kwh system_cost) 1 = 0
    unfold roi_percentage_calc
    rw [if_neg (by rw [h0]; exact lt_irrefl 0), python_round_zero]
  · intro hcost hsav
    have hpb : simple_payback_calc annual_energy_kwh system_cost =
        system_cost / (annual_energy_kwh * NIGERIA_ELECTRICITY_COST) := by
      unfold simple_payback_calc
      rw [if_pos hsav]
    exact ⟨hpb, by
      show python_round (simple_payback_calc annual_energy_kwh system_cost) 1 = _
      rw [hpb]⟩

/-- C7 witness: zero energy gives payback 0, zero cost gives ROI 0, and at
energy 1000 kWh and cost 600 the raw payback is 600 / (1000 * 0.15). -/
theorem financial_analysis_division_guards_witness :
    (calculate_financial_analysis 0 5000).simple_payback_years = 0 ∧
    (calculate_financial_analysis 1000 0).return_on_investment_percent = 0 ∧
    simple_payback_calc 1000 600 = 600 / (1000 * NIGERIA_ELECTRICITY_COST) :=
  ⟨(financial_analysis_division_guards 0 5000).1 (by norm_num),
   (financial_analysis_division_guards 1000 0).2.1 rfl,
   ((financial_analysis_division_guards 1000 600).2.2 (by norm_num)
      (by norm_num [NIGERIA_ELECTRICITY_COST])).1⟩

/-- C8: every field of the benefits block is the display rounding of the fixed
constant formula (the tree count being computed from the UNROUNDED carbon
offset), each unrounded quantity is linear in the energy (doubling the energy
doubles it), and the financial analyzer of `calculate_advanced_benefits`
receives the unrounded energy value. -/
theorem nigerian_benefits_formulas (energy_kwh : ℚ) :
    ((calculate_nigerian_benefits energy_kwh).carbon_offset_tons =
        python_round ((energy_kwh * NIGERIA_EMISSION_FACTOR) / 1000) 1 ∧
      (calculate_nigerian_benefits energy_kwh).annual_savings_usd =
        python_round_int (energy_kwh * NIGERIA_ELECTRICITY_COST) ∧
      (calculate_nigerian_benefits energy_kwh).annual_savings_naira =
        python_round_int (energy_kwh * NIGERIA_ELECTRICITY_COST_NAIRA) ∧
      (calculate_nigerian_benefits energy_kwh).equivalent_homes =
        python_round (energy_kwh / AVERAGE_HOME_CONSUMPTION) 1 ∧
      (calculate_nigerian_benefits energy_kwh).equivalent_trees =
        python_round_int (carbon_offset_tons_calc energy_kwh / 0.02177)) ∧
    (carbon_offset_tons_calc (2 * energy_kwh) =
        2 * carbon_offset_tons_calc energy_kwh ∧
      annual_savings_usd_calc (2 * energy_kwh) =
        2 * annual_savings_usd_calc energy_kwh ∧
      annual_savings_naira_calc (2 * energy_kwh) =
        2 * annual_savings_naira_calc energy_kwh ∧
      equivalent_homes_calc (2 * energy_kwh) =
        2 * equivalent_homes_calc energy_kwh ∧
      equivalent_trees_calc (2 * energy_kwh) =
        2 * equivalent_trees_calc energy_kwh) ∧
    (∀ system_cost : ℚ,
      (calculate_advanced_benefits energy_kwh system_cost true).2 =
        if system_cost > 0 then
          some (calculate_financial_analysis energy_kwh system_cost)
        else none) := by
  refine ⟨⟨rfl, rfl, rfl, rfl, rfl⟩, ⟨?_, ?_, ?_, ?_, ?_⟩, fun system_cost => rfl⟩
  · unfold carbon_offset_tons_calc; ring
  · unfold annual_savings_usd_calc; ring
  · unfold annual_savings_naira_calc; ring
  · unfold equivalent_homes_calc; ring
  · unfold equivalent_trees_calc carbon_offset_tons_calc; ring

/-- C9: if every remote query of the request fails, then for an estimation
request at the exact coordinates of a cataloged city the response data-source
tag is the cached marker (the string the source uses is "cached_data") and
the reported daily irradiance is exactly that city catalog value. -/
theorem estimate_unreachable_remote_uses_cache
    (area efficiency panel_tilt : ℚ) (region : String) (has_battery : Bool)
    (system_cost : ℚ) (remote1 remote2 : RemoteResult) (current_month : ℕ) :
    ∀ c ∈ NIGERIA_SOLAR_DATA,
      try_nasa_api remote1 = none → try_nasa_api remote2 = none →
      (solar_estimate c.lat c.lng area efficiency panel_tilt region
          has_battery system_cost remote1 remote2
          current_month).data_source = "cached_data" ∧
      (solar_estimate c.lat c.lng area efficiency panel_tilt region
          has_battery system_cost remote1 remote2
          current_month).solar_data.daily_irradiance = c.irradiance := by
  intro c hc h1 h2
  constructor
  · show (if (try_nasa_api remote2).isSome then "nasa_api" else "cached_data")
        = "cached_data"
    rw [h2]
    rfl
  · show python_round (get_nigerian_solar_irradiance c.lat c.lng remote1) 2 =
      c.irradiance
    have hirr : get_nigerian_solar_irradiance c.lat c.lng remote1 =
        get_cached_nigerian_irradiance c.lat c.lng := by
      unfold get_nigerian_solar_irradiance
      rw [h1]
    rw [hirr, cached_irradiance_at_city c hc, round2_irradiance_at_city c hc]

/-- C9 witness: the theorem applied at the Lagos entry with both remote
attempts failing. -/
theorem estimate_unreachable_remote_uses_cache_witness :
    (solar_estimate 6.5244 3.3792 20 0.18 15 "south" false 0
        RemoteResult.failure RemoteResult.failure 1).data_source =
      "cached_data" ∧
    (solar_estimate 6.5244 3.3792 20 0.18 15 "south" false 0
        RemoteResult.failure RemoteResult.failure
        1).solar_data.daily_irradiance = 4.8 :=
  estimate_unreachable_remote_uses_cache 20 0.18 15 "south" false 0
    RemoteResult.failure RemoteResult.failure 1
    ⟨"lagos", 6.5244, 3.3792, 4.8, "south"⟩ (List.mem_cons_self _ _) rfl rfl

/-- C10: in every successful response the reported performance figure is the
3-decimal display rounding of exactly the same total-loss multiplier that the
annual-energy computation uses (same region, panel_tilt and has_battery
arguments), and the reported annual energy is the integer rounding of
irradiance * area * efficiency * (unrounded loss multiplier) * 365 *
seasonal_factor(month). -/
theorem estimate_performance_consistency
    (lat lng area efficiency panel_tilt : ℚ) (region : String)
    (has_battery : Bool) (system_cost : ℚ) (remote1 remote2 : RemoteResult)
    (current_month : ℕ) :
    (solar_estimate lat lng area efficiency panel_tilt region has_battery
        system_cost remote1 remote2 current_month).solar_data.system_performance
      = python_round (calculate_total_losses region panel_tilt has_battery) 3 ∧
    (solar_estimate lat lng area efficiency panel_tilt region has_battery
        system_cost remote1 remote2 current_month).solar_data.annual_energy_kwh
      = python_round_int (get_nigerian_solar_irradiance lat lng remote1 *
          area * efficiency *
          calculate_total_losses region panel_tilt has_battery * 365 *
          NIGERIA_MONTHLY_FACTORS current_month) := by
  constructor
  · rfl
  · show python_round_int (calculate_solar_potential
        (get_nigerian_solar_irradiance lat lng remote1) area efficiency region
        panel_tilt has_battery current_month) = _
    exact congrArg python_round_int
      (solar_potential_eq_formula _ _ _ _ _ _ _)
